import Mathlib

/-!
Verification of the LlamaEdge-Nexus gateway against its specification.
The Rust sources under src/ (error.rs, handler.rs, main.rs, rag.rs, utils.rs)
are shallowly embedded below: pure fragments become Lean functions, stateful
handlers become explicit state passing, network effects become explicit
environment values, and a Rust panic (an `unwrap` on `None`) is modelled as
the `none` result of an `Option`-returning function.
-/

namespace Nexus

/-- The error taxonomy of src/error.rs (`ServerError`). -/
inductive ServerError where
  | NotFoundServer (s : String)
  | SocketAddr (s : String)
  | ArgumentError (s : String)
  | Operation (s : String)
  | InvalidServerKind (s : String)
  | BadRequest (s : String)
  | FailedToLoadConfig (s : String)
deriving DecidableEq

/-- The `Display` implementation of `ServerError` generated by the
`thiserror` attributes in src/error.rs. -/
def displayServerError : ServerError → String
  | .NotFoundServer s =>
      "Not found available server. Please register a server via the `/admin/register/"
        ++ s ++ "` endpoint."
  | .SocketAddr s => "Failed to parse socket address: " ++ s
  | .ArgumentError s => s
  | .Operation s => s
  | .InvalidServerKind s => "Invalid server kind: " ++ s
  | .BadRequest s => "Bad request: " ++ s
  | .FailedToLoadConfig s => "Failed to load config: " ++ s

/-- The HTTP status code assigned to each error by
`ServerError::into_response` in src/error.rs. -/
def statusOf : ServerError → Nat
  | .SocketAddr _ => 400
  | .ArgumentError _ => 400
  | .Operation _ => 500
  | .NotFoundServer _ => 404
  | .InvalidServerKind _ => 400
  | .BadRequest _ => 400
  | .FailedToLoadConfig _ => 400

/-- The closed enumeration of backend kinds (`ServerKind` bit names). -/
inductive Kind where
  | chat
  | embeddings
  | image
  | tts
  | translate
  | transcribe
deriving DecidableEq

/-- The stable lowercase token of each kind. -/
def kindToken : Kind → String
  | .chat => "chat"
  | .embeddings => "embeddings"
  | .image => "image"
  | .tts => "tts"
  | .translate => "translate"
  | .transcribe => "transcribe"

/-- Modelled from the spec: `ServerKind::from_str` lives in src/server.rs,
which is not part of the given sources. The spec describes Kind as a closed
enumeration parseable from stable lowercase tokens, and `InvalidKind` as the
error for an unknown kind token. -/
def kindFromStr (s : String) : Except ServerError Kind :=
  if s = "chat" then .ok .chat
  else if s = "embeddings" then .ok .embeddings
  else if s = "image" then .ok .image
  else if s = "tts" then .ok .tts
  else if s = "translate" then .ok .translate
  else if s = "transcribe" then .ok .transcribe
  else .error (.InvalidServerKind s)

/-- A set of kinds, mirroring the `ServerKind` bitset: one flag per kind. -/
structure KindSet where
  chat : Bool
  embeddings : Bool
  image : Bool
  tts : Bool
  translate : Bool
  transcribe : Bool
deriving DecidableEq

/-- Membership test of the bitset (`ServerKind::contains`). -/
def KindSet.containsKind (ks : KindSet) : Kind → Bool
  | .chat => ks.chat
  | .embeddings => ks.embeddings
  | .image => ks.image
  | .tts => ks.tts
  | .translate => ks.translate
  | .transcribe => ks.transcribe

/-- Modelled from the spec: the `Display` of a `ServerKind` set
(src/server.rs is not in the given sources); the declared kinds are joined
by a separator. Only used inside log-style error strings. -/
def KindSet.display (ks : KindSet) : String :=
  String.intercalate ("-")
    (((if ks.chat then [kindToken .chat] else []) ++
      (if ks.embeddings then [kindToken .embeddings] else []) ++
      (if ks.image then [kindToken .image] else []) ++
      (if ks.tts then [kindToken .tts] else []) ++
      (if ks.translate then [kindToken .translate] else []) ++
      (if ks.transcribe then [kindToken .transcribe] else [])))

/-- The downstream server descriptor `crate::server::Server`: id, base URL,
declared kind set, and the monotonic load counter. -/
structure Server where
  id : String
  url : String
  kind : KindSet
  load : Nat
deriving DecidableEq

/-- A pool of servers for one kind (`ServerGroup`). -/
structure ServerGroup where
  kind : Kind
  servers : List Server
deriving DecidableEq

/-- Modelled from the spec: the least-connections scan of a pool
(src/server.rs is not in the given sources): the first descriptor holding
the minimum load. -/
def leastLoaded : List Server → Option Server
  | [] => none
  | s :: rest =>
    match leastLoaded rest with
    | none => some s
    | some t => if t.load < s.load then some t else some s

/-- Modelled from the spec: `ServerGroup::next` selects by least connections
and fails (`NotFoundBackend`) when the pool is empty (src/server.rs is not
in the given sources). -/
def ServerGroup.nextUrl (g : ServerGroup) : Except ServerError String :=
  match leastLoaded g.servers with
  | none => .error (.NotFoundServer (kindToken g.kind))
  | some s => .ok s.url

/-- The registry map `HashMap<ServerKind, ServerGroup>` of `AppState`
(src/main.rs), with one lazily-created slot per kind; `none` means the key
is absent. -/
structure GroupMap where
  chat : Option ServerGroup
  embeddings : Option ServerGroup
  image : Option ServerGroup
  tts : Option ServerGroup
  translate : Option ServerGroup
  transcribe : Option ServerGroup
deriving DecidableEq

def GroupMap.get (gm : GroupMap) : Kind → Option ServerGroup
  | .chat => gm.chat
  | .embeddings => gm.embeddings
  | .image => gm.image
  | .tts => gm.tts
  | .translate => gm.translate
  | .transcribe => gm.transcribe

def GroupMap.set (gm : GroupMap) : Kind → Option ServerGroup → GroupMap
  | .chat, v => { gm with chat := v }
  | .embeddings, v => { gm with embeddings := v }
  | .image, v => { gm with image := v }
  | .tts, v => { gm with tts := v }
  | .translate, v => { gm with translate := v }
  | .transcribe, v => { gm with transcribe := v }

def GroupMap.empty : GroupMap :=
  { chat := none, embeddings := none, image := none, tts := none,
    translate := none, transcribe := none }

/-- The servers of the pool of a kind; an absent pool reads as empty. -/
def poolServers (gm : GroupMap) (k : Kind) : List Server :=
  match gm.get k with
  | none => []
  | some g => g.servers

/-- The backend-selection step shared by the chat, embeddings, transcribe,
translate and tts handlers in src/handler.rs: look the kind up in
`state.server_group`; an absent pool yields
`Operation ("No <kind> server available")`, and a failing `next()` is
wrapped as `Operation ("Failed to get the <kind> server: <e>")`. -/
def selectServerOfKind (gm : GroupMap) (k : Kind) : Except ServerError String :=
  match gm.get k with
  | none => .error (.Operation ("No " ++ kindToken k ++ " server available"))
  | some g =>
    match g.nextUrl with
    | .ok url => .ok url
    | .error e =>
      .error (.Operation ("Failed to get the " ++ kindToken k ++ " server: "
        ++ displayServerError e))

/-- Modelled from the spec: `ServerGroup::register` (src/server.rs is not in
the given sources) inserts the descriptor into the group's list; the spec
gives no group-level failure mode (validation failures are attributed to the
registration input itself), so the insertion always succeeds. -/
def ServerGroup.registerServer (g : ServerGroup) (s : Server) : ServerGroup :=
  { g with servers := g.servers ++ [s] }

/-- One arm of `AppState::register_downstream_server` (src/main.rs): the
`entry(kind).or_insert(ServerGroup::new(kind)).register(server)` pattern. -/
def registerIntoPool (gm : GroupMap) (k : Kind) (s : Server) : GroupMap :=
  match gm.get k with
  | none => gm.set k (some ((ServerGroup.mk k []).registerServer s))
  | some g => gm.set k (some (g.registerServer s))

/-- `AppState::register_downstream_server` (src/main.rs, lines 222-282): for
each of the six kinds, if the descriptor's kind set contains it, insert the
descriptor into that kind's pool, creating the pool on first use. Under the
spec-modelled group-level register no step can fail, so the result is
always `ok`. -/
def register_downstream_server (gm : GroupMap) (s : Server) :
    Except ServerError GroupMap :=
  let gm1 := if s.kind.chat then registerIntoPool gm .chat s else gm
  let gm2 := if s.kind.embeddings then registerIntoPool gm1 .embeddings s else gm1
  let gm3 := if s.kind.image then registerIntoPool gm2 .image s else gm2
  let gm4 := if s.kind.tts then registerIntoPool gm3 .tts s else gm3
  let gm5 := if s.kind.translate then registerIntoPool gm4 .translate s else gm4
  let gm6 := if s.kind.transcribe then registerIntoPool gm5 .transcribe s else gm5
  .ok gm6

/-- The worker behind Rust's `str::split` with a non-empty pattern
`c :: cs`: scan left to right, cutting at each non-overlapping leftmost
occurrence of the pattern; `acc` holds the current piece reversed. The
`fuel` argument, always called with at least the scanned list's length,
only makes the recursion structural: every step consumes at least one
character, so the zero-fuel arm is unreachable. -/
def splitGo (c : Char) (cs : List Char) : Nat → List Char → List Char → List (List Char)
  | _, [], acc => [acc.reverse]
  | 0, l, acc => [acc.reverse ++ l]
  | fuel + 1, x :: xs, acc =>
    if (c :: cs).isPrefixOf (x :: xs) then
      acc.reverse :: splitGo c cs fuel (List.drop cs.length xs) []
    else
      splitGo c cs fuel xs (x :: acc)

/-- Rust's `str::split` for a fixed pattern string (only ever called with
the non-empty patterns `"-server-"` and `"-"`). -/
def splitOnStr (s pat : String) : List String :=
  match pat.data with
  | [] => [s]
  | c :: cs => (splitGo c cs s.data.length s.data []).map String.mk

/-- Modelled from the spec: `ServerGroup::unregister` (src/server.rs is not
in the given sources) removes the descriptors with the given id from the
group; removal across pools is best-effort, so it carries no failure. -/
def ServerGroup.unregisterServer (g : ServerGroup) (serverId : String) : ServerGroup :=
  { g with servers := g.servers.filter (fun s => s.id != serverId) }

/-- The kind loop of `AppState::unregister_downstream_server` (src/main.rs):
parse each token with `ServerKind::from_str(kind).unwrap()` — the `unwrap`
panic is modelled as `none` — then remove the id from the token's pool when
that pool exists, recording in `found` that some pool existed. -/
def unregGo (serverId : String) : List String → GroupMap → Bool →
    Option (GroupMap × Bool)
  | [], gm, found => some (gm, found)
  | t :: ts, gm, found =>
    match kindFromStr t with
    | .error _ => none
    | .ok k =>
      match gm.get k with
      | none => unregGo serverId ts gm found
      | some g => unregGo serverId ts (gm.set k (some (g.unregisterServer serverId))) true

/-- `AppState::unregister_downstream_server` (src/main.rs, lines 284-334):
split the id on `"-server-"`, take the leading segment, split it on `"-"`
into kind tokens, run the kind loop, and fail with
`Operation ("Server <id> not found")` when no pool existed for any token.
The outer `Option` is the panic monad: `none` models the `unwrap` panic on
an unknown kind token. -/
def unregister_downstream_server (gm : GroupMap) (serverId : String) :
    Option (Except ServerError GroupMap) :=
  let prefixSeg := (splitOnStr serverId ("-server-")).headD ("")
  let kinds := splitOnStr prefixSeg ("-")
  match unregGo serverId kinds gm false with
  | none => none
  | some (gm', found) =>
    if found then some (.ok gm')
    else some (.error (.Operation ("Server " ++ serverId ++ " not found")))

/-- The kind tokens parsed from a server id (the segment before
`"-server-"`, split on `"-"`), as the spec describes the id prefix. -/
def parsedKindTokens (serverId : String) : List String :=
  splitOnStr ((splitOnStr serverId ("-server-")).headD ("")) ("-")

/-- Removal of an id from the pools of a list of kinds, skipping absent
pools: the effect the unregister loop has on the registry. -/
def removeFromPools (gm : GroupMap) (ks : List Kind) (serverId : String) : GroupMap :=
  ks.foldl
    (fun g k =>
      match g.get k with
      | none => g
      | some gr => g.set k (some (gr.unregisterServer serverId)))
    gm

/-- Whether a pool exists for at least one of the kinds. -/
def anyPoolPresent (gm : GroupMap) (ks : List Kind) : Bool :=
  ks.any (fun k => (gm.get k).isSome)

/-- Parsing a token list with `ServerKind::from_str`, all-or-nothing:
`none` when some token is not a kind token (the panic case of the
unregister loop). -/
def tokensToKinds : List String → Option (List Kind)
  | [] => some []
  | t :: ts =>
    match kindFromStr t with
    | .error _ => none
    | .ok k =>
      match tokensToKinds ts with
      | none => none
      | some ks => some (k :: ks)

/-- A score value. The Rust code stores `f32` scores but never computes
with them in the embedded fragments — they are only copied along — so they
are modelled as integers. -/
def Score : Type := Int

instance : DecidableEq Score := Int.decEq

instance (n : Nat) : OfNat Score n := ⟨(n : Int)⟩

/-- Textual or multi-part user message content
(`ChatCompletionUserMessageContent`). -/
inductive UserMessageContent where
  | text (s : String)
  | parts
deriving DecidableEq

/-- The message variants of `ChatCompletionRequestMessage` consumed by the
RAG pipeline. -/
inductive ChatCompletionRequestMessage where
  | user (content : UserMessageContent) (name : Option String)
  | system (content : String) (name : Option String)
  | assistant (content : Option String) (name : Option String)
  | tool (content : String)
deriving DecidableEq

/-- The fields of `ChatCompletionRequest` read by the embedded handlers. -/
structure ChatCompletionRequest where
  messages : List ChatCompletionRequestMessage
  stream : Option Bool
  contextWindow : Option Nat
  vdbServerUrl : Option String
  vdbCollectionName : Option (List String)
  limit : Option (List Nat)
  scoreThreshold : Option (List Score)
  vdbApiKey : Option String
  user : Option String
deriving DecidableEq

/-- The `[rag.vector_db]` section of the configuration. -/
structure VectorDbConfig where
  url : String
  collectionName : List String
  limit : Nat
  scoreThreshold : Score
deriving DecidableEq

/-- The `[rag]` section of the configuration, as read by rag.rs. -/
structure RagConfig where
  enable : Bool
  prompt : Option String
  contextWindow : Nat
  vectorDb : VectorDbConfig
deriving DecidableEq

/-- `QdrantConfig` (src/rag.rs). -/
structure QdrantConfig where
  url : String
  collectionName : String
  limit : Nat
  scoreThreshold : Score
deriving DecidableEq

/-- The mismatched-lengths error text of `get_qdrant_configs`. -/
def msgMismatch : String :=
  "The number of elements of `collection name`, `limit`, `score_threshold` in the request should be same."

/-- The partial-settings error text of `get_qdrant_configs`. -/
def msgPartial : String :=
  "The VectorDB settings in the request are not correct. The `url_vdb_server`, `collection_name`, `limit`, `score_threshold` fields in the request should be provided. The number of elements of `collection name`, `limit`, `score_threshold` should be same."

/-- The default config list built from the static configuration (the
all-absent arm of `get_qdrant_configs`). -/
def defaultQdrantConfigs (cfg : RagConfig) : List QdrantConfig :=
  cfg.vectorDb.collectionName.map
    (fun cname =>
      { url := cfg.vectorDb.url, collectionName := cname,
        limit := cfg.vectorDb.limit, scoreThreshold := cfg.vectorDb.scoreThreshold })

/-- `get_qdrant_configs` (src/rag.rs, lines 149-227): all four per-request
fields present requires the three arrays to have equal length; all four
absent falls back to the configuration; a partial set is rejected. Both
rejections construct `ServerError::Operation`. -/
def get_qdrant_configs (req : ChatCompletionRequest) (cfg : RagConfig) :
    Except ServerError (List QdrantConfig) :=
  match req.vdbServerUrl, req.vdbCollectionName, req.limit, req.scoreThreshold with
  | some url, some cnames, some limits, some thresholds =>
    if cnames.length != limits.length || cnames.length != thresholds.length then
      .error (.Operation msgMismatch)
    else
      .ok (cnames.enum.map
        (fun p =>
          { url := url, collectionName := p.2,
            limit := limits.getD p.1 0, scoreThreshold := thresholds.getD p.1 0 }))
  | none, none, none, none => .ok (defaultQdrantConfigs cfg)
  | _, _, _, _ => .error (.Operation msgPartial)

/-- The config-resolution step of `rag::chat` (src/rag.rs, lines 36-44): a
failing `get_qdrant_configs` is re-wrapped as
`Operation ("Failed to get the VectorDB config: <display of e>")`. -/
def ragResolveConfigs (req : ChatCompletionRequest) (cfg : RagConfig) :
    Except ServerError (List QdrantConfig) :=
  match get_qdrant_configs req cfg with
  | .ok v => .ok v
  | .error e =>
    .error (.Operation ("Failed to get the VectorDB config: " ++ displayServerError e))

/-- The health-check sentinel recognised at the end of a user message. -/
def healthSentinel : String := "<server-health>"

/-- Rust's `str::ends_with` on exact character suffixes. -/
def strEndsWith (s pat : String) : Bool :=
  decide (pat.data.length ≤ s.data.length) &&
    decide (s.data.drop (s.data.length - pat.data.length) = pat.data)

/-- Drop the last `n` characters of a string. -/
def strDropRight (s : String) (n : Nat) : String :=
  String.mk (s.data.take (s.data.length - n))

/-- Rust's `str::trim_end_matches`: repeatedly remove the suffix `pat`. -/
def trimEndMatches (s pat : String) : String :=
  if _h : pat.data.length ≠ 0 ∧ strEndsWith s pat = true then
    trimEndMatches (strDropRight s pat.data.length) pat
  else s
termination_by s.data.length
decreasing_by
  obtain ⟨hpat, hend⟩ := _h
  simp only [strEndsWith, Bool.and_eq_true, decide_eq_true_eq] at hend
  simp only [strDropRight, String.length, List.length_take]
  omega

/-- The message-collection loop of
`retrieve_context_with_single_qdrant_config` (src/rag.rs, lines 332-349):
iterate the reversed messages with their index, collect textual user
contents, include a sentinel-suffixed message (stripped) only at index 0
and then stop, and stop once `context_window` messages are gathered. -/
def last_n_user_messages_loop (cw : Nat) :
    List ChatCompletionRequestMessage → Nat → List String → List String
  | [], _, acc => acc
  | m :: rest, idx, acc =>
    match m with
    | .user (.text t) _ =>
      if strEndsWith t healthSentinel = false then
        let acc' := acc ++ [t]
        if acc'.length = cw then acc' else last_n_user_messages_loop cw rest (idx + 1) acc'
      else if idx = 0 then
        acc ++ [trimEndMatches t healthSentinel]
      else
        if acc.length = cw then acc else last_n_user_messages_loop cw rest (idx + 1) acc
    | _ =>
      if acc.length = cw then acc else last_n_user_messages_loop cw rest (idx + 1) acc

/-- The resolution of the context window in
`retrieve_context_with_single_qdrant_config`:
`chat_request.context_window.or(Some(config_ctx_window)).unwrap_or(1)`. -/
def resolveContextWindow (reqCw : Option Nat) (cfgCw : Nat) : Nat :=
  (reqCw.or (some cfgCw)).getD 1

/-- The query-text derivation of
`retrieve_context_with_single_qdrant_config` (src/rag.rs, lines 320-364):
empty messages are a `BadRequest`; otherwise run the collection loop over
the reversed messages, fail with `BadRequest` when nothing was collected,
and otherwise reverse the collection and join it with a newline. -/
def deriveQueryText (messages : List ChatCompletionRequestMessage) (cw : Nat) :
    Except ServerError String :=
  if messages.isEmpty then .error (.BadRequest ("Found empty chat messages"))
  else
    let collected := last_n_user_messages_loop cw messages.reverse 0 []
    if collected.isEmpty then .error (.BadRequest ("No user messages found."))
    else .ok (String.intercalate ("\n") collected.reverse)

/-- The walk of spec section 4.7 step 2, stated with an explicit
"is the most recent message" flag instead of the source's numeric index:
collect textual user contents from tail to head until the context window is
full; a sentinel-suffixed message is included (stripped) only when it is
the most recent message and then terminates the walk. -/
def specWalk (cw : Nat) :
    List ChatCompletionRequestMessage → Bool → List String → List String
  | [], _, acc => acc
  | m :: rest, mostRecent, acc =>
    match m with
    | .user (.text t) _ =>
      if strEndsWith t healthSentinel = false then
        let acc' := acc ++ [t]
        if acc'.length = cw then acc' else specWalk cw rest false acc'
      else if mostRecent then
        acc ++ [trimEndMatches t healthSentinel]
      else
        if acc.length = cw then acc else specWalk cw rest false acc
    | _ =>
      if acc.length = cw then acc else specWalk cw rest false acc

/-- The query-text derivation as the spec words it, built on `specWalk`. -/
def specQueryText (messages : List ChatCompletionRequestMessage) (cw : Nat) :
    Except ServerError String :=
  if messages.isEmpty then .error (.BadRequest ("Found empty chat messages"))
  else
    let collected := specWalk cw messages.reverse true []
    if collected.isEmpty then .error (.BadRequest ("No user messages found."))
    else .ok (String.intercalate ("\n") collected.reverse)

/-- A retrieved point (`RagScoredPoint`): the deduplication key is
`source`. -/
structure RagScoredPoint where
  source : String
  score : Score
deriving DecidableEq

/-- A retrieval result (`RetrieveObject`). -/
structure RetrieveObject where
  points : Option (List RagScoredPoint)
  limit : Nat
  scoreThreshold : Score
deriving DecidableEq

/-- `Vec::remove(i)`: drop the element at index `i`. -/
def removeAt (l : List α) (i : Nat) : List α :=
  l.take i ++ l.drop (i + 1)

/-- The removal loop `for idx in idx_removed.iter().rev() { points.remove(*idx) }`:
fold `removeAt` over the reversed index list. -/
def applyRemoveDesc (l : List α) (idxs : List Nat) : List α :=
  idxs.reverse.foldl removeAt l

/-- The duplicate-marking loop of
`retrieve_context_with_multiple_qdrant_configs` (src/rag.rs, lines 268-275):
walk the points with their index against the running source set, record the
indices of already-seen sources, and insert the new ones. -/
def markDupGo (set : List String) (idx : Nat) :
    List RagScoredPoint → List Nat × List String
  | [] => ([], set)
  | p :: rest =>
    if p.source ∈ set then
      let r := markDupGo set (idx + 1) rest
      (idx :: r.1, r.2)
    else
      markDupGo (p.source :: set) (idx + 1) rest

/-- The aggregation loop of
`retrieve_context_with_multiple_qdrant_configs` (src/rag.rs, lines 253-295),
given the per-collection retrievals in collection order: mark and remove
the points whose source is already in the global set, and keep a retrieval
only when points remain. -/
def aggregateRetrievals (set : List String) : List RetrieveObject → List RetrieveObject
  | [] => []
  | ro :: rest =>
    match ro.points with
    | none => aggregateRetrievals set rest
    | some pts =>
      if pts.isEmpty then aggregateRetrievals set rest
      else
        let mk := markDupGo set 0 pts
        let kept := applyRemoveDesc pts mk.1
        if kept.isEmpty then aggregateRetrievals mk.2 rest
        else { ro with points := some kept } :: aggregateRetrievals mk.2 rest

/-- The deduplication of one point list against a running source set, as
the spec words it: keep a point exactly when its source is new, inserting
kept sources into the set. -/
def specDedup (set : List String) : List RagScoredPoint → List RagScoredPoint × List String
  | [] => ([], set)
  | p :: rest =>
    if p.source ∈ set then specDedup set rest
    else
      let r := specDedup (p.source :: set) rest
      (p :: r.1, r.2)

/-- The aggregation as the spec words it: thread one global source set
through the collections in order, deduplicate each list against it, and
discard lists that end up empty. -/
def specAggregate (set : List String) : List (List RagScoredPoint) → List (List RagScoredPoint)
  | [] => []
  | pts :: rest =>
    let r := specDedup set pts
    if r.1 = [] then specAggregate r.2 rest
    else r.1 :: specAggregate r.2 rest

/-- A JSON payload value (`serde_json::Value`), reduced to what the
embedded code inspects: string values, and everything else abstracted by
its printed form. -/
inductive JsonValue where
  | str (s : String)
  | other (printed : String)
deriving DecidableEq

/-- `Value::to_string`: a string value prints quoted (escaping elided), any
other value prints as its printed form. -/
def JsonValue.jsonToString : JsonValue → String
  | .str s => "\"" ++ s ++ "\""
  | .other p => p

/-- `Value::as_str`. -/
def JsonValue.asStr : JsonValue → Option String
  | .str s => some s
  | .other _ => none

/-- Lookup in a JSON object (`Map::get`). -/
def assocGet (m : List (String × JsonValue)) (k : String) : Option JsonValue :=
  match m with
  | [] => none
  | (k', v) :: rest => if k' = k then some v else assocGet rest k

/-- A qdrant `ScoredPoint`: an optional JSON payload and a score. -/
structure ScoredPoint where
  payload : Option (List (String × JsonValue))
  score : Score
deriving DecidableEq

/-- The within-collection deduplication of `retrieve_context`
(src/rag.rs, lines 508-522): filter by `seen.insert(...)` keyed on
`point.payload.as_ref().unwrap().get("source").unwrap().to_string()`. A
missing payload or a missing `"source"` key hits an `unwrap` panic,
modelled as `none`. -/
def dedupByJsonSource (seen : List String) : List ScoredPoint → Option (List ScoredPoint)
  | [] => some []
  | p :: rest =>
    match p.payload with
    | none => none
    | some payload =>
      match assocGet payload ("source") with
      | none => none
      | some v =>
        let key := v.jsonToString
        if key ∈ seen then dedupByJsonSource seen rest
        else
          match dedupByJsonSource (key :: seen) rest with
          | none => none
          | some l => some (p :: l)

/-- The conversion loop of `retrieve_context` (src/rag.rs, lines 533-548):
a point contributes a `RagScoredPoint` only when its payload is present and
its `"source"` value is a string. -/
def toRagPoints : List ScoredPoint → List RagScoredPoint
  | [] => []
  | p :: rest =>
    match p.payload with
    | some payload =>
      match (assocGet payload ("source")).bind JsonValue.asStr with
      | some s => { source := s, score := p.score } :: toRagPoints rest
      | none => toRagPoints rest
    | none => toRagPoints rest

/-- The pure tail of `retrieve_context` (src/rag.rs, lines 505-558), from
the raw search result onward: deduplicate by the printed `"source"` value
(panicking on a missing payload or key), then build the `RetrieveObject` —
`points` is `none` when nothing survived. -/
def retrieveContextPure (scoredPoints : List ScoredPoint) (limit : Nat)
    (scoreThreshold : Option Score) : Option RetrieveObject :=
  match dedupByJsonSource [] scoredPoints with
  | none => none
  | some unique =>
    if unique.isEmpty then
      some { points := none, limit := limit, scoreThreshold := scoreThreshold.getD 0 }
    else
      some { points := some (toRagPoints unique), limit := limit,
             scoreThreshold := scoreThreshold.getD 0 }

/-- A per-kind model descriptor of the backend info response. Modelled from
the spec: src/info.rs is not in the given sources; the spec only requires
per-kind optional model descriptors. -/
structure ModelConfig where
  name : String
deriving DecidableEq

/-- The backend capabilities (`ApiServer`), parsed from `GET /v1/info`.
Modelled from the spec (src/info.rs is not in the given sources): optional
per-kind model descriptors, plus the server id stamped by the verifier. -/
structure ApiServer where
  serverId : Option String
  chatModel : Option ModelConfig
  embeddingModel : Option ModelConfig
  imageModel : Option ModelConfig
  ttsModel : Option ModelConfig
  translateModel : Option ModelConfig
  transcribeModel : Option ModelConfig
deriving DecidableEq

instance {ε α : Type} [DecidableEq ε] [DecidableEq α] : DecidableEq (Except ε α) :=
  fun a b =>
    match a, b with
    | .ok x, .ok y =>
      if h : x = y then isTrue (by rw [h]) else isFalse (fun hh => by cases hh; exact h rfl)
    | .ok _, .error _ => isFalse (fun hh => by cases hh)
    | .error _, .ok _ => isFalse (fun hh => by cases hh)
    | .error x, .error y =>
      if h : x = y then isTrue (by rw [h]) else isFalse (fun hh => by cases hh; exact h rfl)

/-- The network environment of one verification run: the outcome of
`GET /v1/info` (connection error, or status plus body parse) and of
`GET /v1/models` (connection error, or body parse into a model list). -/
structure VerifyEnv where
  infoFetch : Except String (Nat × Except String ApiServer)
  modelsFetch : Except String (Except String (List String))
deriving DecidableEq

/-- `HashMap::insert`: replace the binding of the key, or append it. -/
def listInsert (k : String) (v : α) : List (String × α) → List (String × α)
  | [] => [(k, v)]
  | (k', v') :: rest =>
    if k' = k then (k, v) :: rest else (k', v') :: listInsert k v rest

/-- The gateway state touched by registration: the capability cache
`server_info`, the per-server `models` map, and the registry pools. -/
structure GatewayState where
  serverInfo : List (String × ApiServer)
  models : List (String × List String)
  groups : GroupMap
deriving DecidableEq

/-- `StatusCode::is_success`. -/
def is2xx (status : Nat) : Bool :=
  decide (200 ≤ status) && decide (status < 300)

def chatKindErrMsg : String :=
  "You are trying to register a chat server. However, the server does not support `chat`. Please check the server kind."

def embeddingsKindErrMsg : String :=
  "You are trying to register an embedding server. However, the server does not support `embeddings`. Please check the server kind."

def imageKindErrMsg : String :=
  "You are trying to register an image server. However, the server does not support `image`. Please check the server kind."

def ttsKindErrMsg : String :=
  "You are trying to register a TTS server. However, the server does not support `tts`. Please check the server kind."

def translateKindErrMsg : String :=
  "You are trying to register a translation server. However, the server does not support `translate`. Please check the server kind."

def transcribeKindErrMsg : String :=
  "You are trying to register a transcription server. However, the server does not support `transcribe`. Please check the server kind."

/-- `verify_server` (src/handler.rs, lines 552-658), with the two network
calls supplied by `env`: probe `/v1/info`, check the status, parse the
capabilities, stamp the server id, check every declared kind against its
model descriptor, then insert into the `server_info` cache, and only then
fetch and parse `/v1/models` and insert into the `models` map. The state
after each early error is returned alongside the error. -/
def verify_server (env : VerifyEnv) (serverId : String) (serverKind : KindSet)
    (st : GatewayState) : Except ServerError Unit × GatewayState :=
  match env.infoFetch with
  | .error e =>
    (.error (.Operation ("Failed to verify the " ++ serverKind.display
      ++ " downstream server: " ++ e)), st)
  | .ok (status, parsed) =>
    if is2xx status = false then
      (.error (.Operation ("Failed to verify the " ++ serverKind.display
        ++ " downstream server: " ++ toString status)), st)
    else
      match parsed with
      | .error e => (.error (.Operation ("Failed to parse the server info: " ++ e)), st)
      | .ok apiServer0 =>
        let apiServer := { apiServer0 with serverId := some serverId }
        if serverKind.chat && apiServer.chatModel.isNone then
          (.error (.Operation chatKindErrMsg), st)
        else if serverKind.embeddings && apiServer.embeddingModel.isNone then
          (.error (.Operation embeddingsKindErrMsg), st)
        else if serverKind.image && apiServer.imageModel.isNone then
          (.error (.Operation imageKindErrMsg), st)
        else if serverKind.tts && apiServer.ttsModel.isNone then
          (.error (.Operation ttsKindErrMsg), st)
        else if serverKind.translate && apiServer.translateModel.isNone then
          (.error (.Operation translateKindErrMsg), st)
        else if serverKind.transcribe && apiServer.transcribeModel.isNone then
          (.error (.Operation transcribeKindErrMsg), st)
        else
          let st1 := { st with serverInfo := listInsert serverId apiServer st.serverInfo }
          match env.modelsFetch with
          | .error e =>
            (.error (.Operation ("Failed to get the models from the downstream server: " ++ e)), st1)
          | .ok (.error e) =>
            (.error (.Operation ("Failed to parse the models: " ++ e)), st1)
          | .ok (.ok modelList) =>
            (.ok (), { st1 with models := listInsert serverId modelList st1.models })

/-- `admin::register_downstream_server_handler` (src/handler.rs, lines
490-549): when the declared kind set meets any of the six kinds, run
`verify_server` first and abort on its error; then commit through
`AppState::register_downstream_server`. -/
def register_downstream_server_handler (env : VerifyEnv) (server : Server)
    (st : GatewayState) : Except ServerError Unit × GatewayState :=
  let anyKind := server.kind.chat || server.kind.embeddings || server.kind.image
    || server.kind.transcribe || server.kind.translate || server.kind.tts
  let step1 : Except ServerError Unit × GatewayState :=
    if anyKind then verify_server env server.id server.kind st else (.ok (), st)
  match step1 with
  | (.error e, st') => (.error e, st')
  | (.ok _, st') =>
    match register_downstream_server st'.groups server with
    | .ok gm => (.ok (), { st' with groups := gm })
    | .error e => (.error e, st')

/-- The gateway-side view of an HTTP response: status, header list in
insertion order, body bytes. -/
structure HttpResponse where
  status : Nat
  headers : List (String × String)
  body : List Nat
deriving DecidableEq

/-- `Response::builder()` with a status, a sequence of `.header(...)` calls
in order, and a body. -/
def buildResponse (status : Nat) (headers : List (String × String)) (body : List Nat) :
    HttpResponse :=
  { status := status,
    headers := headers.foldl (fun acc h => acc ++ [h]) [],
    body := body }

/-- The response-shaping tail of the `chat` handler (src/handler.rs, lines
98-133): a request that asked `stream: true` gets
`Content-Type: text/event-stream`; `stream: false` or an absent `stream`
gets `Content-Type: application/json`; the downstream status and body bytes
are kept. -/
def chatBuildResponse (stream : Option Bool) (status : Nat) (bytes : List Nat) :
    HttpResponse :=
  match stream with
  | some true => buildResponse status [("Content-Type", "text/event-stream")] bytes
  | some false => buildResponse status [("Content-Type", "application/json")] bytes
  | none => buildResponse status [("Content-Type", "application/json")] bytes

/-- The response-shaping tail of `audio_tts_handler` (src/handler.rs, lines
461-485): copy the downstream status, every downstream header in order, and
the body bytes. -/
def audioTtsBuildResponse (ds : HttpResponse) : HttpResponse :=
  buildResponse ds.status ds.headers ds.body

/-- A kind set declaring only `chat`. -/
def kindSetChatOnly : KindSet :=
  { chat := true, embeddings := false, image := false, tts := false,
    translate := false, transcribe := false }

/-- A kind set declaring `chat` and `embeddings`. -/
def kindSetChatEmbeddings : KindSet :=
  { chat := true, embeddings := true, image := false, tts := false,
    translate := false, transcribe := false }

/-- A registered chat server. -/
def sampleServerA : Server :=
  { id := "chat-server-1", url := "http://localhost:9068/",
    kind := kindSetChatOnly, load := 0 }

/-- A registry holding one chat pool containing `sampleServerA`. -/
def sampleGroupMapA : GroupMap :=
  { GroupMap.empty with chat := some { kind := .chat, servers := [sampleServerA] } }

/-- A dual-kind candidate backend. -/
def sampleServerCE : Server :=
  { id := "chat-embeddings-server-1", url := "http://localhost:9068/",
    kind := kindSetChatEmbeddings, load := 0 }

/-- A chat candidate used in the registration scenarios. -/
def sampleServerChat : Server :=
  { id := "chat-server-0", url := "http://localhost:9068/",
    kind := kindSetChatOnly, load := 0 }

/-- Capabilities of a backend that supports only chat. -/
def sampleApiServerChat : ApiServer :=
  { serverId := none, chatModel := some { name := "llama" }, embeddingModel := none,
    imageModel := none, ttsModel := none, translateModel := none, transcribeModel := none }

/-- The same capabilities after the verifier stamps the server id. -/
def sampleApiServerStamped : ApiServer :=
  { sampleApiServerChat with serverId := some ("chat-server-0") }

/-- An environment in which `/v1/info` succeeds but `/v1/models` fails. -/
def sampleEnvModelsFail : VerifyEnv :=
  { infoFetch := .ok (200, .ok sampleApiServerChat),
    modelsFetch := .error ("connection refused") }

/-- The fresh gateway state. -/
def emptyGatewayState : GatewayState :=
  { serverInfo := [], models := [], groups := GroupMap.empty }

/-- The state left behind when verification fails at the models step. -/
def sampleStateAfterFailure : GatewayState :=
  { serverInfo := [("chat-server-0", sampleApiServerStamped)], models := [],
    groups := GroupMap.empty }

/-- A chat request with every optional field absent. -/
def emptyChatRequest : ChatCompletionRequest :=
  { messages := [], stream := none, contextWindow := none, vdbServerUrl := none,
    vdbCollectionName := none, limit := none, scoreThreshold := none,
    vdbApiKey := none, user := none }

/-- A chat request carrying only `vdb_server_url` of the four vector-DB
fields: a partial set. -/
def samplePartialVdbRequest : ChatCompletionRequest :=
  { emptyChatRequest with vdbServerUrl := some ("http://127.0.0.1:6333") }

/-- A static RAG configuration with one default collection. -/
def sampleRagConfig : RagConfig :=
  { enable := true, prompt := none, contextWindow := 1,
    vectorDb := { url := "http://127.0.0.1:6333", collectionName := ["default"],
                  limit := 10, scoreThreshold := 1 } }

/-- A nonempty message list containing no user message. -/
def sampleAssistantOnly : List ChatCompletionRequestMessage :=
  [.assistant none none]

/-- A scored point with no payload at all. -/
def badPointNoPayload : ScoredPoint := { payload := none, score := 0 }

/-- A scored point whose payload lacks the `"source"` key. -/
def badPointNoSource : ScoredPoint :=
  { payload := some [("text", JsonValue.str ("hello"))], score := 0 }

theorem GroupMap.get_set_self (gm : GroupMap) (k : Kind) (v : Option ServerGroup) :
    (gm.set k v).get k = v := by
  cases k <;> rfl

theorem GroupMap.get_set_ne (gm : GroupMap) (k k' : Kind) (v : Option ServerGroup)
    (h : k' ≠ k) : (gm.set k v).get k' = gm.get k' := by
  cases k <;> cases k' <;> first | rfl | exact absurd rfl h

theorem poolServers_registerIntoPool_self (gm : GroupMap) (k : Kind) (s : Server) :
    poolServers (registerIntoPool gm k s) k = poolServers gm k ++ [s] := by
  unfold registerIntoPool
  cases hg : gm.get k <;>
    simp [poolServers, GroupMap.get_set_self, ServerGroup.registerServer, hg]

theorem poolServers_registerIntoPool_ne (gm : GroupMap) (k k' : Kind) (s : Server)
    (h : k' ≠ k) : poolServers (registerIntoPool gm k s) k' = poolServers gm k' := by
  unfold registerIntoPool
  cases hg : gm.get k <;> simp [poolServers, GroupMap.get_set_ne _ _ _ _ h]

theorem poolServers_condReg (g : GroupMap) (k0 k : Kind) (s : Server) (b : Bool) :
    poolServers (if b then registerIntoPool g k0 s else g) k =
      if b = true ∧ k = k0 then poolServers g k ++ [s] else poolServers g k := by
  cases b
  · simp
  · by_cases h : k = k0
    · subst h
      simp [poolServers_registerIntoPool_self]
    · simp [h, poolServers_registerIntoPool_ne _ _ _ _ h]

/-- C6. Registration is atomic across pools: `register_downstream_server`
always commits, and the committed registry holds the candidate in the pool
of every declared kind and leaves every other pool untouched; with the
error case of `register` vacuous (the spec-modelled group-level insert
cannot fail), the backend appears in all its pools or — on an error — in
none. -/
theorem registerAtomicAcrossPools (gm : GroupMap) (s : Server) :
    ∃ gm', register_downstream_server gm s = Except.ok gm' ∧
      (∀ k : Kind, s.kind.containsKind k = true → s ∈ poolServers gm' k) ∧
      (∀ k : Kind, s.kind.containsKind k = false → poolServers gm' k = poolServers gm k) := by
  refine ⟨_, rfl, fun k hk => ?_, fun k hk => ?_⟩ <;>
    cases k <;>
    simp only [KindSet.containsKind] at hk <;>
    simp [register_downstream_server, poolServers_condReg,
      poolServers_registerIntoPool_self, hk]

/-- Witness for C6 at a concrete dual-kind backend and the empty registry. -/
theorem registerAtomicAcrossPools_witness :
    ∃ gm', register_downstream_server GroupMap.empty sampleServerCE = Except.ok gm' ∧
      sampleServerCE ∈ poolServers gm' Kind.chat ∧
      sampleServerCE ∈ poolServers gm' Kind.embeddings ∧
      poolServers gm' Kind.image = poolServers GroupMap.empty Kind.image := by
  obtain ⟨gm', h1, h2, h3⟩ := registerAtomicAcrossPools GroupMap.empty sampleServerCE
  exact ⟨gm', h1, h2 Kind.chat (by decide), h2 Kind.embeddings (by decide),
    h3 Kind.image (by decide)⟩

/-- C1 (amended). For the five dispatched kinds, an absent pool makes the
handler's selection step fail with `Operation ("No <kind> server available")`,
mapped to HTTP 500; a present but empty pool fails with
`Operation ("Failed to get the <kind> server: <selection error>")`, also
mapped to HTTP 500. -/
theorem emptyPoolSelectError (gm : GroupMap) (k : Kind)
    (_hk : k = Kind.chat ∨ k = Kind.embeddings ∨ k = Kind.transcribe ∨
      k = Kind.translate ∨ k = Kind.tts) :
    (gm.get k = none →
      selectServerOfKind gm k =
        Except.error (ServerError.Operation ("No " ++ kindToken k ++ " server available")) ∧
      statusOf (ServerError.Operation ("No " ++ kindToken k ++ " server available")) = 500) ∧
    (∀ g, gm.get k = some g → g.servers = [] →
      ∃ m, selectServerOfKind gm k =
        Except.error (ServerError.Operation
          ("Failed to get the " ++ kindToken k ++ " server: " ++ m)) ∧
        statusOf (ServerError.Operation
          ("Failed to get the " ++ kindToken k ++ " server: " ++ m)) = 500) := by
  refine ⟨fun h => ⟨?_, rfl⟩, fun g hg hs => ?_⟩
  · simp [selectServerOfKind, h]
  · refine ⟨displayServerError (ServerError.NotFoundServer (kindToken g.kind)), ?_, rfl⟩
    simp [selectServerOfKind, hg, ServerGroup.nextUrl, hs, leastLoaded]

/-- Witness for C1 at the empty registry and the chat kind. -/
theorem emptyPoolSelectError_witness :
    selectServerOfKind GroupMap.empty Kind.chat =
      Except.error (ServerError.Operation ("No " ++ kindToken Kind.chat ++ " server available")) ∧
    statusOf (ServerError.Operation ("No " ++ kindToken Kind.chat ++ " server available")) = 500 :=
  (emptyPoolSelectError GroupMap.empty Kind.chat (Or.inl rfl)).1 rfl

/-- Counterexample for C1 as stated: on an empty registry the chat selection
fails with an `Operation` error whose status is 500, not with a
`NotFoundServer` error mapped to 404. -/
theorem emptyPoolNotFound404Counterexample :
    selectServerOfKind GroupMap.empty Kind.chat =
      Except.error (ServerError.Operation ("No chat server available")) ∧
    statusOf (ServerError.Operation ("No chat server available")) ≠ 404 ∧
    (∀ m, selectServerOfKind GroupMap.empty Kind.chat ≠
      Except.error (ServerError.NotFoundServer m)) := by
  refine ⟨by decide, by decide, fun m h => ?_⟩
  rw [show selectServerOfKind GroupMap.empty Kind.chat =
    Except.error (ServerError.Operation ("No chat server available")) from by decide] at h
  simp at h

/-- C2 (amended). Vector-DB config resolution for a RAG chat request: all
four per-request fields absent uses the default configuration list; a
partial set fails with an `Operation` error (wrapped by `rag::chat` as
`"Failed to get the VectorDB config: ..."`) mapped to HTTP 500; all four
present with mismatched array lengths fails likewise with an `Operation`
error mapped to HTTP 500. -/
theorem vdbConfigResolution (req : ChatCompletionRequest) (cfg : RagConfig) :
    (req.vdbServerUrl = none ∧ req.vdbCollectionName = none ∧ req.limit = none ∧
        req.scoreThreshold = none →
      ragResolveConfigs req cfg = Except.ok (defaultQdrantConfigs cfg)) ∧
    ((req.vdbServerUrl.isSome = true ∨ req.vdbCollectionName.isSome = true ∨
        req.limit.isSome = true ∨ req.scoreThreshold.isSome = true) ∧
     (req.vdbServerUrl.isNone = true ∨ req.vdbCollectionName.isNone = true ∨
        req.limit.isNone = true ∨ req.scoreThreshold.isNone = true) →
      ragResolveConfigs req cfg =
        Except.error (ServerError.Operation
          ("Failed to get the VectorDB config: " ++ msgPartial)) ∧
      statusOf (ServerError.Operation
        ("Failed to get the VectorDB config: " ++ msgPartial)) = 500) ∧
    (∀ url cnames limits thresholds,
      req.vdbServerUrl = some url → req.vdbCollectionName = some cnames →
      req.limit = some limits → req.scoreThreshold = some thresholds →
      (cnames.length ≠ limits.length ∨ cnames.length ≠ thresholds.length) →
      ragResolveConfigs req cfg =
        Except.error (ServerError.Operation
          ("Failed to get the VectorDB config: " ++ msgMismatch)) ∧
      statusOf (ServerError.Operation
        ("Failed to get the VectorDB config: " ++ msgMismatch)) = 500) := by
  refine ⟨fun h => ?_, fun h => ?_, fun url cnames limits thresholds hu hc hl ht hlen => ?_⟩
  · obtain ⟨h1, h2, h3, h4⟩ := h
    simp [ragResolveConfigs, get_qdrant_configs, h1, h2, h3, h4]
  · obtain ⟨hsome, hnone⟩ := h
    rcases hu : req.vdbServerUrl with _ | u <;>
      rcases hc : req.vdbCollectionName with _ | c <;>
        rcases hl : req.limit with _ | l <;>
          rcases ht : req.scoreThreshold with _ | t <;>
            simp_all [ragResolveConfigs, get_qdrant_configs, statusOf, displayServerError]
  · have hb : (cnames.length != limits.length || cnames.length != thresholds.length) = true := by
      rcases hlen with h | h <;> simp [bne_iff_ne, h]
    simp [ragResolveConfigs, get_qdrant_configs, hu, hc, hl, ht, hb, statusOf,
      displayServerError]

/-- Witness for C2 at a request carrying only `vdb_server_url`. -/
theorem vdbConfigResolution_witness :
    ragResolveConfigs samplePartialVdbRequest sampleRagConfig =
      Except.error (ServerError.Operation
        ("Failed to get the VectorDB config: " ++ msgPartial)) ∧
    statusOf (ServerError.Operation
      ("Failed to get the VectorDB config: " ++ msgPartial)) = 500 :=
  (vdbConfigResolution samplePartialVdbRequest sampleRagConfig).2.1
    ⟨Or.inl (by decide), Or.inr (Or.inl (by decide))⟩

set_option maxRecDepth 16384 in
/-- Counterexample for C2 as stated: a partial vector-DB field set yields an
`Operation` error with HTTP status 500, not a `BadRequest` error with
status 400. -/
theorem vdbPartialBadRequestCounterexample :
    ragResolveConfigs samplePartialVdbRequest sampleRagConfig =
      Except.error (ServerError.Operation
        ("Failed to get the VectorDB config: " ++ msgPartial)) ∧
    statusOf (ServerError.Operation
      ("Failed to get the VectorDB config: " ++ msgPartial)) ≠ 400 ∧
    (∀ m, ragResolveConfigs samplePartialVdbRequest sampleRagConfig ≠
      Except.error (ServerError.BadRequest m)) := by
  refine ⟨by decide, by decide, fun m h => ?_⟩
  rw [show ragResolveConfigs samplePartialVdbRequest sampleRagConfig =
    Except.error (ServerError.Operation
      ("Failed to get the VectorDB config: " ++ msgPartial)) from by decide] at h
  simp at h

theorem loop_eq_specWalk (cw : Nat) (msgs : List ChatCompletionRequestMessage) :
    ∀ idx acc, last_n_user_messages_loop cw msgs idx acc =
      specWalk cw msgs (decide (idx = 0)) acc := by
  induction msgs with
  | nil => intro idx acc; rfl
  | cons m rest ih =>
    intro idx acc
    cases m with
    | user content name =>
      cases content with
      | text t =>
        simp only [last_n_user_messages_loop, specWalk]
        by_cases h1 : strEndsWith t healthSentinel = false
        · simp only [h1, if_true]
          by_cases h2 : (acc ++ [t]).length = cw
          · simp [h2]
          · simp [h2, ih (idx + 1) (acc ++ [t])]
        · simp only [h1, if_false]
          by_cases h2 : idx = 0
          · simp [h2]
          · have h3 : (decide (idx = 0)) = false := by simp [h2]
            simp only [h2, if_false, h3, Bool.false_eq_true]
            by_cases h4 : acc.length = cw
            · simp [h4]
            · simp [h4, ih (idx + 1) acc]
      | parts =>
        simp only [last_n_user_messages_loop, specWalk]
        by_cases h4 : acc.length = cw
        · simp [h4]
        · simp [h4, ih (idx + 1) acc]
    | system content name =>
      simp only [last_n_user_messages_loop, specWalk]
      by_cases h4 : acc.length = cw
      · simp [h4]
      · simp [h4, ih (idx + 1) acc]
    | assistant content name =>
      simp only [last_n_user_messages_loop, specWalk]
      by_cases h4 : acc.length = cw
      · simp [h4]
      · simp [h4, ih (idx + 1) acc]
    | tool content =>
      simp only [last_n_user_messages_loop, specWalk]
      by_cases h4 : acc.length = cw
      · simp [h4]
      · simp [h4, ih (idx + 1) acc]

/-- C3 (amended). The RAG query text is derived exactly as the spec's walk
describes — tail-to-head over the messages, textual user contents, the
`<server-health>` sentinel included (stripped) only on the most recent
message where it also ends the walk, stopping at the resolved context
window, reversed and joined with a newline — where the context window is
the per-request value when present and the config value otherwise; an
empty message list fails with `BadRequest`, and an empty collection fails
with `BadRequest ("No user messages found.")` (note the trailing
period). -/
theorem ragQueryDerivation (messages : List ChatCompletionRequestMessage)
    (reqCw : Option Nat) (cfgCw : Nat) :
    resolveContextWindow reqCw cfgCw = reqCw.getD cfgCw ∧
    deriveQueryText messages (resolveContextWindow reqCw cfgCw) =
      specQueryText messages (reqCw.getD cfgCw) := by
  have hcw : resolveContextWindow reqCw cfgCw = reqCw.getD cfgCw := by
    cases reqCw <;> rfl
  refine ⟨hcw, ?_⟩
  rw [hcw]
  simp only [deriveQueryText, specQueryText, loop_eq_specWalk, decide_true_eq_true]

/-- Counterexample for C3 as stated: when no user message is collected the
error message carries a trailing period, `"No user messages found."`, not
the claim's `"No user messages found"`. -/
theorem noUserMessagesPeriodCounterexample :
    deriveQueryText sampleAssistantOnly 1 =
      Except.error (ServerError.BadRequest ("No user messages found.")) ∧
    deriveQueryText sampleAssistantOnly 1 ≠
      Except.error (ServerError.BadRequest ("No user messages found")) := by
  constructor <;> decide

theorem applyRemoveDesc_nil (l : List α) : applyRemoveDesc l [] = l := rfl

theorem applyRemoveDesc_cons (l : List α) (i : Nat) (idxs : List Nat) :
    applyRemoveDesc l (i :: idxs) = removeAt (applyRemoveDesc l idxs) i := by
  simp [applyRemoveDesc, List.reverse_cons, List.foldl_append]

theorem removeAt_zero_cons (p : α) (l : List α) : removeAt (p :: l) 0 = l := by
  simp [removeAt]

theorem removeAt_succ_cons (p : α) (l : List α) (i : Nat) :
    removeAt (p :: l) (i + 1) = p :: removeAt l i := by
  simp [removeAt]

theorem applyRemoveDesc_map_succ (p : α) (l : List α) (idxs : List Nat) :
    applyRemoveDesc (p :: l) (idxs.map (· + 1)) = p :: applyRemoveDesc l idxs := by
  induction idxs with
  | nil => rfl
  | cons i rest ih =>
    simp only [List.map_cons, applyRemoveDesc_cons, ih, removeAt_succ_cons]

theorem markDupGo_shift (pts : List RagScoredPoint) :
    ∀ (set : List String) (idx : Nat),
      markDupGo set idx pts =
        (((markDupGo set 0 pts).1).map (· + idx), (markDupGo set 0 pts).2) := by
  induction pts with
  | nil => intro set idx; simp [markDupGo]
  | cons p rest ih =>
    intro set idx
    by_cases h : p.source ∈ set
    · simp only [markDupGo, if_pos h]
      rw [ih set (idx + 1), ih set 1]
      simp only [List.map_cons, List.map_map, Prod.mk.injEq]
      refine ⟨?_, trivial⟩
      rw [Nat.zero_add]
      congr 1
      apply List.map_congr_left
      intro a _
      simp only [Function.comp_apply]
      omega
    · simp only [markDupGo, if_neg h]
      rw [ih (p.source :: set) (idx + 1), ih (p.source :: set) 1]
      simp only [List.map_map, Prod.mk.injEq]
      refine ⟨?_, trivial⟩
      apply List.map_congr_left
      intro a _
      simp only [Function.comp_apply]
      omega

theorem dedupMarks_eq_specDedup (pts : List RagScoredPoint) :
    ∀ set : List String,
      applyRemoveDesc pts (markDupGo set 0 pts).1 = (specDedup set pts).1 ∧
      (markDupGo set 0 pts).2 = (specDedup set pts).2 := by
  induction pts with
  | nil => intro set; simp [markDupGo, specDedup, applyRemoveDesc]
  | cons p rest ih =>
    intro set
    by_cases h : p.source ∈ set
    · simp only [markDupGo, if_pos h, specDedup]
      rw [markDupGo_shift rest set 1]
      refine ⟨?_, (ih set).2⟩
      rw [applyRemoveDesc_cons, applyRemoveDesc_map_succ, removeAt_zero_cons]
      exact (ih set).1
    · simp only [markDupGo, if_neg h, specDedup]
      rw [markDupGo_shift rest (p.source :: set) 1]
      refine ⟨?_, (ih (p.source :: set)).2⟩
      rw [applyRemoveDesc_map_succ]
      rw [(ih (p.source :: set)).1]

theorem aggregate_eq_specAggregate (ros : List RetrieveObject) :
    ∀ set : List String,
      (aggregateRetrievals set ros).map (fun ro => ro.points.getD []) =
        specAggregate set (ros.map (fun ro => ro.points.getD [])) := by
  induction ros with
  | nil => intro set; rfl
  | cons ro rest ih =>
    intro set
    cases hp : ro.points with
    | none =>
      simp only [aggregateRetrievals, hp, List.map_cons, Option.getD_none,
        specAggregate, specDedup]
      simp [ih set]
    | some pts =>
      by_cases he : pts.isEmpty
      · have hpts : pts = [] := List.isEmpty_iff.mp he
        subst hpts
        simp only [aggregateRetrievals, hp, List.map_cons, Option.getD_some,
          specAggregate, specDedup]
        simp [he, ih set]
      · have hd := dedupMarks_eq_specDedup pts set
        simp only [aggregateRetrievals, hp, he, List.map_cons, Option.getD_some,
          specAggregate, if_false, Bool.false_eq_true]
        rw [hd.1, hd.2]
        by_cases hk : (specDedup set pts).1 = []
        · simp [hk, List.isEmpty_iff, ih (specDedup set pts).2]
        · have hk' : ((specDedup set pts).1).isEmpty = false := by
            simp [List.isEmpty_iff, hk]
          simp [hk, hk', ih (specDedup set pts).2]

/-- C4. The aggregation over the per-collection retrievals implements the
spec's deduplication: one global set of source strings threaded through
the collections in order, a point dropped whenever its source was already
seen — in the same collection's list or in an earlier collection — and a
retrieval discarded when its point list is empty after deduplication. -/
theorem dedupAcrossCollections (ros : List RetrieveObject) :
    (aggregateRetrievals [] ros).map (fun ro => ro.points.getD []) =
      specAggregate [] (ros.map (fun ro => ro.points.getD [])) :=
  aggregate_eq_specAggregate ros []

theorem verify_server_fail_effects (env : VerifyEnv) (sid : String) (ks : KindSet)
    (st : GatewayState) (e : ServerError) (st2 : GatewayState)
    (h : verify_server env sid ks st = (Except.error e, st2)) :
    st2.groups = st.groups ∧ st2.models = st.models ∧
    (st2.serverInfo = st.serverInfo ∨
      ∃ a, st2.serverInfo = listInsert sid a st.serverInfo) := by
  simp only [verify_server] at h
  repeat' split at h
  all_goals injection h with h1 h2
  all_goals
    first
    | exact Except.noConfusion h1
    | (subst h2;
       refine ⟨rfl, rfl, ?_⟩;
       first
       | exact Or.inl rfl
       | exact Or.inr ⟨_, rfl⟩)

/-- C5 (amended). Capability verification runs before the registry commit,
and when the registration handler fails the pools and the models map are
unchanged — in particular no pool contains the candidate beyond the prior
state — but the `server_info` capability cache may additionally hold the
candidate's entry: the verifier inserts it before the `/v1/models` step, so
a failure of that final step leaves the cache updated. -/
theorem verifyFailureStateEffects (env : VerifyEnv) (server : Server)
    (st : GatewayState) (e : ServerError) (st' : GatewayState)
    (h : register_downstream_server_handler env server st = (Except.error e, st')) :
    st'.groups = st.groups ∧ st'.models = st.models ∧
    (st'.serverInfo = st.serverInfo ∨
      ∃ a, st'.serverInfo = listInsert server.id a st.serverInfo) := by
  by_cases ha : (server.kind.chat || server.kind.embeddings || server.kind.image
      || server.kind.transcribe || server.kind.translate || server.kind.tts) = true
  · simp only [register_downstream_server_handler, ha, if_true] at h
    rcases hv : verify_server env server.id server.kind st with ⟨r, st2⟩
    rw [hv] at h
    cases r with
    | error e2 =>
      injection h with h1 h2
      subst h2
      exact verify_server_fail_effects env server.id server.kind st e2 _ hv
    | ok u =>
      simp [register_downstream_server] at h
  · simp [register_downstream_server_handler, ha, register_downstream_server] at h

/-- Witness for C5: a concrete run in which `/v1/info` verifies but
`/v1/models` fails, applied to the theorem. -/
theorem verifyFailureStateEffects_witness :
    sampleStateAfterFailure.groups = emptyGatewayState.groups ∧
    sampleStateAfterFailure.models = emptyGatewayState.models ∧
    (sampleStateAfterFailure.serverInfo = emptyGatewayState.serverInfo ∨
      ∃ a, sampleStateAfterFailure.serverInfo =
        listInsert sampleServerChat.id a emptyGatewayState.serverInfo) :=
  verifyFailureStateEffects sampleEnvModelsFail sampleServerChat emptyGatewayState
    (ServerError.Operation
      ("Failed to get the models from the downstream server: connection refused"))
    sampleStateAfterFailure (by decide)

/-- Counterexample for C5 as stated: when the `/v1/models` fetch fails the
handler aborts — the registry pools stay empty — yet the gateway state is
modified: the `server_info` cache now holds the candidate's entry. -/
theorem verifyFailureSideEffectCounterexample :
    register_downstream_server_handler sampleEnvModelsFail sampleServerChat
        emptyGatewayState =
      (Except.error (ServerError.Operation
        ("Failed to get the models from the downstream server: connection refused")),
       sampleStateAfterFailure) ∧
    sampleStateAfterFailure.groups = GroupMap.empty ∧
    sampleStateAfterFailure.serverInfo ≠ emptyGatewayState.serverInfo := by
  refine ⟨by decide, by decide, by decide⟩

theorem unregGo_eq (serverId : String) (toks : List String) :
    ∀ (ks : List Kind),
      tokensToKinds toks = some ks →
      ∀ (gm : GroupMap) (b : Bool),
        unregGo serverId toks gm b =
          some (removeFromPools gm ks serverId, b || anyPoolPresent gm ks) := by
  induction toks with
  | nil =>
    intro ks h gm b
    simp only [tokensToKinds, Option.some.injEq] at h
    subst h
    simp [unregGo, removeFromPools, anyPoolPresent]
  | cons t ts ih =>
    intro ks h gm b
    rcases hf : kindFromStr t with e1 | k
    · simp [tokensToKinds, hf] at h
    · rcases hm : tokensToKinds ts with _ | ks'
      · simp [tokensToKinds, hf, hm] at h
      · have hks : ks = k :: ks' := by
          simp [tokensToKinds, hf, hm] at h
          exact h.symm
        subst hks
        rcases hg : gm.get k with _ | g
        · simp only [unregGo, hf, hg]
          rw [ih ks' hm gm b]
          simp [removeFromPools, anyPoolPresent, hg]
        · simp only [unregGo, hf, hg]
          rw [ih ks' hm (gm.set k (some (g.unregisterServer serverId))) true]
          simp [removeFromPools, anyPoolPresent, hg]

/-- C7 (amended). `unregister` parses the kind tokens from the id prefix
and removes the descriptor from each named pool that exists; it fails —
with `Operation ("Server <id> not found")`, an HTTP 500 error — if and only
if no pool exists for any parsed kind. In particular it can succeed even
when no pool contained the descriptor, as long as a pool for one of its
kinds exists. -/
theorem unregisterBehavior (gm : GroupMap) (serverId : String) (ks : List Kind)
    (h : tokensToKinds (parsedKindTokens serverId) = some ks) :
    unregister_downstream_server gm serverId =
      some (if anyPoolPresent gm ks then
              Except.ok (removeFromPools gm ks serverId)
            else
              Except.error (ServerError.Operation
                ("Server " ++ serverId ++ " not found"))) := by
  have hgo := unregGo_eq serverId (parsedKindTokens serverId) ks h gm false
  simp only [parsedKindTokens] at hgo
  simp only [unregister_downstream_server, hgo, Bool.false_or]
  by_cases hp : anyPoolPresent gm ks
  · simp [hp]
  · simp only [Bool.not_eq_true] at hp
    simp [hp]

/-- Witness for C7: unregistering the registered id `"chat-server-1"` from
the registry that holds it. -/
theorem unregisterBehavior_witness :
    unregister_downstream_server sampleGroupMapA ("chat-server-1") =
      some (if anyPoolPresent sampleGroupMapA [Kind.chat] then
              Except.ok (removeFromPools sampleGroupMapA [Kind.chat] ("chat-server-1"))
            else
              Except.error (ServerError.Operation
                ("Server " ++ "chat-server-1" ++ " not found"))) :=
  unregisterBehavior sampleGroupMapA ("chat-server-1") [Kind.chat] (by decide)

/-- Counterexample for C7 as stated: no pool contains the id
`"chat-server-2"`, yet unregistering it succeeds because a chat pool
exists; the claimed `NotFound` failure does not occur. -/
theorem unregisterNotFoundCounterexample :
    unregister_downstream_server sampleGroupMapA ("chat-server-2") =
      some (Except.ok sampleGroupMapA) ∧
    poolServers sampleGroupMapA Kind.chat = [sampleServerA] ∧
    sampleServerA.id ≠ "chat-server-2" ∧
    poolServers sampleGroupMapA Kind.embeddings = [] ∧
    poolServers sampleGroupMapA Kind.image = [] ∧
    poolServers sampleGroupMapA Kind.tts = [] ∧
    poolServers sampleGroupMapA Kind.translate = [] ∧
    poolServers sampleGroupMapA Kind.transcribe = [] := by
  refine ⟨by decide, by decide, by decide, by decide, by decide, by decide,
    by decide, by decide⟩

/-- C9. Unregistering an id whose prefix holds a token outside the six kind
tokens — here the id `"foo"` — hits the `unwrap` on `ServerKind::from_str`
and panics (the `none` result) instead of returning an `InvalidKind` or
`NotFound` error, whatever the registry contents. -/
theorem unregisterPanicsOnUnknownKindToken (gm : GroupMap) :
    unregister_downstream_server gm ("foo") = none := rfl

theorem foldl_push_eq {α : Type} (l : List α) :
    ∀ acc : List α, l.foldl (fun acc h => acc ++ [h]) acc = acc ++ l := by
  induction l with
  | nil => intro acc; simp
  | cons x xs ih => intro acc; simp [List.foldl_cons, ih]

/-- C8. Response shaping: a chat request with `stream: true` gets
`Content-Type: text/event-stream`, a chat request with `stream: false` or
no `stream` field gets `Content-Type: application/json`, the downstream
status and body bytes being kept either way; and the audio speech (tts)
handler's response preserves the downstream status, headers and body
bytes unchanged. -/
theorem streamContentTypePassthrough :
    (∀ status bytes, chatBuildResponse (some true) status bytes =
      { status := status, headers := [("Content-Type", "text/event-stream")],
        body := bytes }) ∧
    (∀ (stream : Option Bool) status bytes, stream = some false ∨ stream = none →
      chatBuildResponse stream status bytes =
        { status := status, headers := [("Content-Type", "application/json")],
          body := bytes }) ∧
    (∀ ds : HttpResponse, audioTtsBuildResponse ds = ds) := by
  refine ⟨fun status bytes => ?_, fun stream status bytes h => ?_, fun ds => ?_⟩
  · simp [chatBuildResponse, buildResponse, foldl_push_eq]
  · rcases h with h | h <;> subst h <;>
      simp [chatBuildResponse, buildResponse, foldl_push_eq]
  · simp [audioTtsBuildResponse, buildResponse, foldl_push_eq]

/-- Witness for C8 at a request without a `stream` field. -/
theorem streamContentTypePassthrough_witness :
    chatBuildResponse none 200 [1, 2] =
      { status := 200, headers := [("Content-Type", "application/json")],
        body := [1, 2] } :=
  streamContentTypePassthrough.2.1 none 200 [1, 2] (Or.inr rfl)

/-- C10. The within-collection deduplication of `retrieve_context` panics
(the `none` result of the model) on a scored point whose payload is absent,
and likewise on a payload lacking the `"source"` key, instead of skipping
the point or returning an error. -/
theorem retrieveContextPanicsOnMissingSource :
    retrieveContextPure [badPointNoPayload] 1 (some 0) = none ∧
    retrieveContextPure [badPointNoSource] 1 (some 0) = none := by
  constructor <;> decide

end Nexus
